import Mathlib

/-!
Verification of the wallet-service bootstrap layer (src/service/service.cpp).

The file shallowly embeds the control flow of `main` and the `WalletService`
class.  Effects (logging, file cleanup, reactor creation, signal-handler
installation, running the event loop) are recorded as an event trace; C++
exceptions are modelled by `Except`, with the environment deciding where a
throw occurs.  The embedding follows the source line by line; the only
definitions taken from the spec rather than the source are explicitly marked
with a doc comment starting with "Modelled from the spec".
-/

namespace WalletServiceSpec

/-- A resolved `io::Address` (opaque: only identity matters here). -/
structure IoAddress where
  addr : Nat
deriving DecidableEq, Repr

/-- A C++ exception reaching one of the two top-level catch clauses of `main`:
either a `std::exception` (caught at line 173, its `what()` logged) or any
other thrown value (caught by `catch (...)` at line 177). -/
inductive CppExn
  | stdExn (what : String)
  | nonStd
deriving DecidableEq, Repr

/-- The variables map after `po::store` / config reading / `vm.notify()`:
the option values of the anonymous `options` struct (service.cpp lines
87-96) together with the occurrence counts `main` queries via `vm.count`. -/
structure Vm where
  helpCount : Nat
  nodeAddrCount : Nat
  nodeURI : String
  port : Nat
  pollPeriod_ms : Nat
  logCleanupPeriod : Nat
  allowedOrigin : String
  withPipes : Bool
  withAssets : Bool
deriving DecidableEq, Repr

/-- The default values declared in the `options_description` of `main`
(service.cpp lines 101-111). -/
structure OptDesc where
  portDefault : Nat
  allowedOriginDefault : String
  logCleanupDaysDefault : Nat
  nodePollPeriodDefault : Nat
  withPipesDefault : Bool
  withAssetsDefault : Bool
deriving DecidableEq, Repr

/-- The "Wallet API general options" description built at lines 101-111:
port defaults to 8080, allowed origin to "", log cleanup period to 5 days,
node poll period to 0 ms, both boolean switches to false.  The node address
has no default (it is checked manually at line 146). -/
def walletApiOptions : OptDesc :=
  { portDefault := 8080
    allowedOriginDefault := ""
    logCleanupDaysDefault := 5
    nodePollPeriodDefault := 0
    withPipesDefault := false
    withAssetsDefault := false }

/-- Modelled from the spec: `beam::wallet::days2sec` (declared outside
src/) converts the log-retention period, configured "in whole days", to
seconds. -/
def days2sec (d : Nat) : Nat := d * 24 * 60 * 60

/-- `LOG_ROTATION_PERIOD_SEC` of service.cpp line 163: a local compile-time
constant, 12 hours in seconds. -/
def LOG_ROTATION_PERIOD_SEC : Nat := 12 * 60 * 60

/-- The constructor arguments `main` passes to `WalletService` at line 168. -/
structure ServiceConfig where
  withAssets : Bool
  nodeAddr : IoAddress
  port : Nat
  allowedOrigin : String
  withPipes : Bool
deriving DecidableEq, Repr

/-- Observable effects of `main`, in program order. -/
inductive Event
  | printHelp
  | readCfg
  | cleanOldLogfiles (retentionSec : Nat)
  | setupRules
  | logError (msg : String)
  | createReactor
  | installSignalHandler
  | startLogRotation (rotationSec retentionSec : Nat)
  | createService (cfg : ServiceConfig)
  | runLoop
  | logDone
  | logException (e : CppExn)
deriving DecidableEq, Repr

/-- How `safeReactor->ref().run()` ends: returning normally (after `stop()`),
or by a thrown exception propagating out of the loop. -/
inductive RunEnd
  | normal
  | raise (e : CppExn)
deriving DecidableEq, Repr

/-- The environment `main` executes in: the outcome of each step that can
throw or that depends on the outside world.
* `cmdParse`: `po::store(po::command_line_parser(...).run(), vm)` (lines
  117-120) — throws on a malformed command line;
* `cfgRead`: `ReadCfgFromFileCommon`, `ReadCfgFromFile` and `vm.notify()`
  (lines 128-130) — throws on a bad config file, otherwise yields the final
  variables map;
* `rulesSetup`: `clean_old_logfiles`, `getRulesOptions`,
  `Rules::get().UpdateChecksum()` and the info logging (lines 132-144);
* `resolve`: `io::Address::resolve` (line 152) — `none` when resolution
  fails;
* `serverSetup`: reactor creation, `LogRotation` and `WalletService`
  construction (lines 159-168) — throws e.g. on a failed transport bind;
* `runEnd`: how `run()` (line 169) terminates. -/
structure Env where
  cmdParse : Except CppExn Vm
  cfgRead : Vm → Except CppExn Vm
  rulesSetup : Except CppExn Unit
  resolve : String → Option IoAddress
  serverSetup : Except CppExn Unit
  runEnd : RunEnd

/-- Shallow embedding of `main` (service.cpp lines 72-183): the returned
`Int` is the value `main` returns, the list is the trace of effects.
Every catch clause logs and falls through to `return 0` (line 182). -/
def mainFn (env : Env) : Int × List Event :=
  match env.cmdParse with
  | .error e => (0, [.logException e])
  | .ok vm =>
    if vm.helpCount ≠ 0 then
      (0, [.printHelp])
    else
      match env.cfgRead vm with
      | .error e => (0, [.readCfg, .logException e])
      | .ok vm2 =>
        let retention := days2sec vm2.logCleanupPeriod
        match env.rulesSetup with
        | .error e => (0, [.readCfg, .cleanOldLogfiles retention, .logException e])
        | .ok _ =>
          let evs : List Event := [.readCfg, .cleanOldLogfiles retention, .setupRules]
          if vm2.nodeAddrCount = 0 then
            (-1, evs ++ [.logError "node address should be specified"])
          else
            match env.resolve vm2.nodeURI with
            | none => (-1, evs ++ [.logError "unable to resolve node address"])
            | some a =>
              match env.serverSetup with
              | .error e => (0, evs ++ [.logException e])
              | .ok _ =>
                let evs2 := evs ++ [.createReactor, .installSignalHandler,
                  .startLogRotation LOG_ROTATION_PERIOD_SEC retention,
                  .createService ⟨vm2.withAssets, a, vm2.port, vm2.allowedOrigin, vm2.withPipes⟩,
                  .runLoop]
                match env.runEnd with
                | .normal => (0, evs2 ++ [.logDone])
                | .raise e => (0, evs2 ++ [.logException e])

/-- POSIX exit status observed by a supervisor: the low 8 bits of the value
returned from `main`. -/
def exitStatus (r : Int) : Nat := (r % 256).toNat

/-- The environment makes some step inside the `try` block of `main` throw
the exception `e` (and every earlier step succeed far enough to reach it). -/
def raisesWith (env : Env) (e : CppExn) : Prop :=
  env.cmdParse = .error e
  ∨ (∃ vm, env.cmdParse = .ok vm ∧ vm.helpCount = 0 ∧ env.cfgRead vm = .error e)
  ∨ (∃ vm vm2, env.cmdParse = .ok vm ∧ vm.helpCount = 0 ∧
      env.cfgRead vm = .ok vm2 ∧ env.rulesSetup = .error e)
  ∨ (∃ vm vm2 a, env.cmdParse = .ok vm ∧ vm.helpCount = 0 ∧
      env.cfgRead vm = .ok vm2 ∧ env.rulesSetup = .ok () ∧
      vm2.nodeAddrCount ≠ 0 ∧ env.resolve vm2.nodeURI = some a ∧
      env.serverSetup = .error e)
  ∨ (∃ vm vm2 a, env.cmdParse = .ok vm ∧ vm.helpCount = 0 ∧
      env.cfgRead vm = .ok vm2 ∧ env.rulesSetup = .ok () ∧
      vm2.nodeAddrCount ≠ 0 ∧ env.resolve vm2.nodeURI = some a ∧
      env.serverSetup = .ok () ∧ env.runEnd = .raise e)

/-- Parsing of the command line or of the configuration file fails. -/
def parseFails (env : Env) : Prop :=
  (∃ e, env.cmdParse = .error e)
  ∨ (∃ vm e, env.cmdParse = .ok vm ∧ vm.helpCount = 0 ∧ env.cfgRead vm = .error e)

/-- The mandatory node-address option was not supplied (its count in the
variables map is zero when line 146 checks it). -/
def missingNodeAddr (env : Env) : Prop :=
  ∃ vm vm2, env.cmdParse = .ok vm ∧ vm.helpCount = 0 ∧
    env.cfgRead vm = .ok vm2 ∧ env.rulesSetup = .ok () ∧ vm2.nodeAddrCount = 0

/-- The state of the `WalletService` object (service.cpp lines 45-69): its
constructor arguments and its owned `_walletMap` member.  The registry is
identified by `walletMapId` (the address of the `_walletMap` member, fixed
for the service's lifetime) and carries its entries in `walletMap`. -/
structure WalletServiceState where
  withAssets : Bool
  nodeAddr : IoAddress
  walletMapId : Nat
  walletMap : List (String × Nat)
deriving DecidableEq, Repr

/-- A `ServiceClient` as constructed at line 62: it captures the service's
feature flag and node address by value, the connection's send function, and
`_walletMap` by reference (modelled by the registry's identity). -/
structure ServiceClient where
  withAssets : Bool
  nodeAddr : IoAddress
  wsSend : Nat
  walletMapRef : Nat
deriving DecidableEq, Repr

/-- `WalletService::ReactorThread_onNewWSClient` (lines 60-63): constructs a
single `ServiceClient` from the service's `_withAssets`, `_nodeAddr`, the
connection's send function and a reference to `_walletMap`. -/
def ReactorThread_onNewWSClient (svc : WalletServiceState) (wsSend : Nat) :
    ServiceClient :=
  ⟨svc.withAssets, svc.nodeAddr, wsSend, svc.walletMapId⟩

/-- The server over its lifetime: the `WalletService` object plus the live
handlers the WebSocket layer currently holds. -/
structure ServerState where
  svc : WalletServiceState
  handlers : List ServiceClient
deriving DecidableEq, Repr

/-- Accepting a WebSocket connection: the base class calls
`ReactorThread_onNewWSClient` once and retains the returned handler.  The
`WalletService` object itself (its `_walletMap` included) is untouched. -/
def acceptConnection (st : ServerState) (wsSend : Nat) : ServerState :=
  { st with handlers := st.handlers ++ [ReactorThread_onNewWSClient st.svc wsSend] }

/-- A connection dropping: the shared pointer to its handler is released.
Destroying a handler does not touch the `WalletService` object, so the
registry and its entries survive. -/
def dropConnection (st : ServerState) (c : ServiceClient) : ServerState :=
  { st with handlers := st.handlers.erase c }

/-- One step of the server's connection lifecycle. -/
inductive ServerOp
  | accept (wsSend : Nat)
  | drop (c : ServiceClient)
deriving DecidableEq, Repr

/-- Apply one lifecycle step. -/
def applyOp (st : ServerState) : ServerOp → ServerState
  | .accept s => acceptConnection st s
  | .drop c => dropConnection st c

/-- Apply a sequence of lifecycle steps. -/
def applyOps (st : ServerState) (ops : List ServerOp) : ServerState :=
  ops.foldl applyOp st

/-- Modelled from the spec: the downstream consumer of the node poll period
is not in src/ (only the option is parsed there); per the option's help text
and spec section 6, "poll period would be no less than the expected rate of
blocks; if it is less then it will be rounded up to block rate value". -/
def coercePollPeriod (blockIntervalMs configuredMs : Nat) : Nat :=
  if configuredMs < blockIntervalMs then blockIntervalMs else configuredMs

/-- Modelled from the spec: `io::Reactor::GracefulIntHandler` (outside src/)
makes a delivered interrupt/termination signal stop the reactor, so `run()`
returns normally rather than throwing (spec sections 4.1 and 4.5). -/
def runEndAfterSignal : RunEnd := RunEnd.normal

/-- A well-formed variables map: node address supplied, all defaults. -/
def vmOk : Vm :=
  { helpCount := 0, nodeAddrCount := 1, nodeURI := "127.0.0.1:8100"
    port := 8080, pollPeriod_ms := 0, logCleanupPeriod := 5
    allowedOrigin := "", withPipes := false, withAssets := false }

/-- A variables map that omits the node address. -/
def vmNoNode : Vm := { vmOk with nodeAddrCount := 0 }

/-- A variables map with the help option supplied. -/
def vmHelp : Vm := { vmOk with helpCount := 1 }

/-- Environment where every startup step succeeds and the loop stops
normally. -/
def envOk : Env :=
  { cmdParse := .ok vmOk, cfgRead := fun v => .ok v, rulesSetup := .ok ()
    resolve := fun _ => some ⟨7⟩, serverSetup := .ok (), runEnd := .normal }

/-- Environment where the command line fails to parse. -/
def envParseFail : Env := { envOk with cmdParse := .error (.stdExn "bad option") }

/-- Environment where the node address is omitted. -/
def envNoNode : Env := { envOk with cmdParse := .ok vmNoNode }

/-- Environment where the supplied node address does not resolve. -/
def envUnresolvable : Env := { envOk with resolve := fun _ => none }

/-- Environment where the help option is supplied. -/
def envHelp : Env := { envOk with cmdParse := .ok vmHelp }

/-- Environment where `run()` ends by throwing a `std::exception`. -/
def envRunThrows : Env := { envOk with runEnd := .raise (.stdExn "boom") }

/-- Helper: whenever some step inside the `try` block throws, `main` returns
0 and the exception is logged by a top-level catch clause. -/
lemma mainFn_of_raisesWith (env : Env) (e : CppExn) (h : raisesWith env e) :
    (mainFn env).1 = 0 ∧ Event.logException e ∈ (mainFn env).2 := by
  rcases h with hp | ⟨vm, hp, hh, hc⟩ | ⟨vm, vm2, hp, hh, hc, hr⟩
    | ⟨vm, vm2, a, hp, hh, hc, hr, hn, hres, hs⟩
    | ⟨vm, vm2, a, hp, hh, hc, hr, hn, hres, hs, hrun⟩
  · simp [mainFn, hp]
  · simp [mainFn, hp, hh, hc]
  · simp [mainFn, hp, hh, hc, hr]
  · simp [mainFn, hp, hh, hc, hr, hn, hres, hs]
  · simp [mainFn, hp, hh, hc, hr, hn, hres, hs, hrun]

/-- C1 (counterexample): an input whose command-line parsing fails does NOT
abort with a non-zero exit status — the thrown exception is caught at the
top level of `main` and the process exits with status 0 (though `run()` is
indeed never entered). -/
theorem parse_failure_exits_zero :
    (∃ e, envParseFail.cmdParse = Except.error e)
    ∧ exitStatus (mainFn envParseFail).1 = 0
    ∧ Event.runLoop ∉ (mainFn envParseFail).2 := by
  refine ⟨⟨CppExn.stdExn "bad option", rfl⟩, rfl, ?_⟩
  simp [mainFn, envParseFail, envOk]

/-- C1 (amended): every input whose command-line or configuration parsing
fails aborts startup before `run()` is entered, but with exit status 0
(the exception is caught and `main` returns 0); every input that omits the
mandatory node address aborts startup with a non-zero exit status before
`run()` is entered. -/
theorem bad_config_aborts_before_run (env : Env) :
    (parseFails env →
      exitStatus (mainFn env).1 = 0 ∧ Event.runLoop ∉ (mainFn env).2)
    ∧ (missingNodeAddr env →
      exitStatus (mainFn env).1 ≠ 0 ∧ Event.runLoop ∉ (mainFn env).2) := by
  constructor
  · rintro (⟨e, hp⟩ | ⟨vm, e, hp, hh, hc⟩)
    · simp [mainFn, hp, exitStatus]
    · simp [mainFn, hp, hh, hc, exitStatus]
  · rintro ⟨vm, vm2, hp, hh, hc, hr, hn⟩
    simp [mainFn, hp, hh, hc, hr, hn, exitStatus]

/-- C1 (witness for the amended theorem): with the node address omitted,
the exit status is non-zero and the loop is never entered. -/
theorem bad_config_aborts_before_run_witness :
    exitStatus (mainFn envNoNode).1 ≠ 0 ∧ Event.runLoop ∉ (mainFn envNoNode).2 :=
  (bad_config_aborts_before_run envNoNode).2
    ⟨vmNoNode, vmNoNode, rfl, rfl, rfl, rfl, rfl⟩

/-- C2: if the node address is absent, or present but unresolvable, `main`
logs an error and returns a non-zero exit status; the reactor is never
created, `run()` is never entered, and no `ServiceClient` is constructed. -/
theorem node_addr_failure_aborts (env : Env) (vm vm2 : Vm)
    (hp : env.cmdParse = .ok vm) (hh : vm.helpCount = 0)
    (hc : env.cfgRead vm = .ok vm2) (hr : env.rulesSetup = .ok ())
    (hbad : vm2.nodeAddrCount = 0 ∨ env.resolve vm2.nodeURI = none) :
    exitStatus (mainFn env).1 ≠ 0
    ∧ (∃ m, Event.logError m ∈ (mainFn env).2)
    ∧ Event.createReactor ∉ (mainFn env).2
    ∧ Event.runLoop ∉ (mainFn env).2
    ∧ ∀ cfg, Event.createService cfg ∉ (mainFn env).2 := by
  by_cases hn : vm2.nodeAddrCount = 0
  · refine ⟨?_, ⟨"node address should be specified", ?_⟩, ?_, ?_, ?_⟩ <;>
      simp [mainFn, hp, hh, hc, hr, hn, exitStatus]
  · rcases hbad with hbad | hres
    · exact absurd hbad hn
    · refine ⟨?_, ⟨"unable to resolve node address", ?_⟩, ?_, ?_, ?_⟩ <;>
        simp [mainFn, hp, hh, hc, hr, hn, hres, exitStatus]

/-- C2 (witness): with an unresolvable node address the process exits
non-zero, logs an error, and never creates the reactor or a session. -/
theorem node_addr_failure_aborts_witness :
    exitStatus (mainFn envUnresolvable).1 ≠ 0
    ∧ (∃ m, Event.logError m ∈ (mainFn envUnresolvable).2)
    ∧ Event.createReactor ∉ (mainFn envUnresolvable).2
    ∧ Event.runLoop ∉ (mainFn envUnresolvable).2
    ∧ ∀ cfg, Event.createService cfg ∉ (mainFn envUnresolvable).2 :=
  node_addr_failure_aborts envUnresolvable vmOk vmOk rfl rfl rfl rfl (Or.inr rfl)

/-- C3: every exception escaping `run()` — or any other step inside the
`try` block of `main` — is caught by a top-level catch clause, logged, and
`main` returns normally (with value 0) instead of letting the exception
propagate. -/
theorem top_level_catch_logs_and_returns (env : Env) (e : CppExn)
    (h : raisesWith env e) :
    (mainFn env).1 = 0 ∧ Event.logException e ∈ (mainFn env).2 :=
  mainFn_of_raisesWith env e h

/-- C3 (witness): an exception thrown out of `run()` is caught and logged,
and `main` returns 0. -/
theorem top_level_catch_logs_and_returns_witness :
    (mainFn envRunThrows).1 = 0
    ∧ Event.logException (CppExn.stdExn "boom") ∈ (mainFn envRunThrows).2 :=
  top_level_catch_logs_and_returns envRunThrows (CppExn.stdExn "boom")
    (Or.inr (Or.inr (Or.inr (Or.inr
      ⟨vmOk, vmOk, ⟨7⟩, rfl, rfl, rfl, rfl, by decide, rfl, rfl, rfl⟩))))

/-- C4: when the help option is supplied, `main` prints the option
description and returns exit code 0, and the event loop is never started. -/
theorem help_prints_and_exits_zero (env : Env) (vm : Vm)
    (hp : env.cmdParse = .ok vm) (hh : vm.helpCount ≠ 0) :
    exitStatus (mainFn env).1 = 0
    ∧ Event.printHelp ∈ (mainFn env).2
    ∧ Event.runLoop ∉ (mainFn env).2 := by
  simp [mainFn, hp, hh, exitStatus]

/-- C4 (witness): a concrete invocation with the help flag set. -/
theorem help_prints_and_exits_zero_witness :
    exitStatus (mainFn envHelp).1 = 0
    ∧ Event.printHelp ∈ (mainFn envHelp).2
    ∧ Event.runLoop ∉ (mainFn envHelp).2 :=
  help_prints_and_exits_zero envHelp vmHelp rfl (by decide)

/-- C9: for every exception caught by the top-level handlers of `main` —
whether thrown during option parsing, configuration loading, any other
startup step, or the run itself — `main` returns 0, so the exit status a
supervisor observes is 0, not non-zero. -/
theorem caught_exception_exit_status_zero (env : Env) (e : CppExn)
    (h : raisesWith env e) :
    (mainFn env).1 = 0 ∧ exitStatus (mainFn env).1 = 0 := by
  have h0 := (mainFn_of_raisesWith env e h).1
  exact ⟨h0, by rw [h0]; rfl⟩

/-- C9 (witness): a parse failure yields observed exit status 0. -/
theorem caught_exception_exit_status_zero_witness :
    (mainFn envParseFail).1 = 0 ∧ exitStatus (mainFn envParseFail).1 = 0 :=
  caught_exception_exit_status_zero envParseFail (CppExn.stdExn "bad option")
    (Or.inl rfl)

/-- C5: each accepted WebSocket connection produces exactly one new
`ServiceClient`, constructed from the connection's send function and a
reference to the service's shared `_walletMap`; the service object itself
is unchanged by the accept. -/
theorem one_handler_per_connection (st : ServerState) (s : Nat) :
    (acceptConnection st s).handlers
        = st.handlers ++ [ReactorThread_onNewWSClient st.svc s]
    ∧ (acceptConnection st s).handlers.length = st.handlers.length + 1
    ∧ (ReactorThread_onNewWSClient st.svc s).wsSend = s
    ∧ (ReactorThread_onNewWSClient st.svc s).walletMapRef = st.svc.walletMapId
    ∧ (ReactorThread_onNewWSClient st.svc s).withAssets = st.svc.withAssets
    ∧ (ReactorThread_onNewWSClient st.svc s).nodeAddr = st.svc.nodeAddr
    ∧ (acceptConnection st s).svc = st.svc :=
  ⟨rfl, by simp [acceptConnection], rfl, rfl, rfl, rfl, rfl⟩

/-- C6: over any sequence of connection accepts and drops, every live
handler references the one `_walletMap` owned by the `WalletService`
object, and neither creating nor destroying a handler changes the service
object or the registry's entries. -/
theorem handlers_share_one_registry (st0 : ServerState) (ops : List ServerOp)
    (h : ∀ c ∈ st0.handlers, c.walletMapRef = st0.svc.walletMapId) :
    (applyOps st0 ops).svc = st0.svc
    ∧ (applyOps st0 ops).svc.walletMap = st0.svc.walletMap
    ∧ ∀ c ∈ (applyOps st0 ops).handlers,
        c.walletMapRef = st0.svc.walletMapId := by
  induction ops generalizing st0 with
  | nil => exact ⟨rfl, rfl, h⟩
  | cons op ops ih =>
    have hsvc : (applyOp st0 op).svc = st0.svc := by
      cases op <;> rfl
    have hinv : ∀ c ∈ (applyOp st0 op).handlers,
        c.walletMapRef = st0.svc.walletMapId := by
      cases op with
      | accept s =>
        intro c hc
        simp [applyOp, acceptConnection] at hc
        rcases hc with hc | hc
        · exact h c hc
        · rw [hc]; rfl
      | drop d =>
        intro c hc
        exact h c (List.mem_of_mem_erase hc)
    have hstep := ih (applyOp st0 op) (by rw [hsvc]; exact hinv)
    rw [hsvc] at hstep
    simp only [applyOps, List.foldl_cons] at hstep ⊢
    exact hstep

/-- A fresh server with registry identity 42 and no entries or handlers. -/
def st0ex : ServerState := ⟨⟨false, ⟨7⟩, 42, []⟩, []⟩

/-- C6 (witness): two accepted connections on a fresh server both reference
the service's registry, which is unchanged. -/
theorem handlers_share_one_registry_witness :
    (applyOps st0ex [ServerOp.accept 1, ServerOp.accept 2]).svc = st0ex.svc
    ∧ (applyOps st0ex [ServerOp.accept 1, ServerOp.accept 2]).svc.walletMap
        = st0ex.svc.walletMap
    ∧ ∀ c ∈ (applyOps st0ex [ServerOp.accept 1, ServerOp.accept 2]).handlers,
        c.walletMapRef = st0ex.svc.walletMapId :=
  handlers_share_one_registry st0ex [ServerOp.accept 1, ServerOp.accept 2]
    (by simp [st0ex])

/-- C7: a configured node-poll period smaller than the block-production
interval is coerced up to exactly that interval (never silently kept), so
the effective period is never below the floor; in particular a configured
period of 0 yields the block interval itself. -/
theorem poll_period_floor (b c : Nat) (h : c < b) :
    coercePollPeriod b c = b
    ∧ b ≤ coercePollPeriod b c
    ∧ coercePollPeriod b 0 = b := by
  have h0 : 0 < b := Nat.lt_of_le_of_lt (Nat.zero_le c) h
  refine ⟨?_, ?_, ?_⟩ <;> simp [coercePollPeriod, h, h0]

/-- C7 (witness): a configured period of 0 against a 60000 ms block
interval is coerced to 60000 ms. -/
theorem poll_period_floor_witness :
    coercePollPeriod 60000 0 = 60000
    ∧ 60000 ≤ coercePollPeriod 60000 0
    ∧ coercePollPeriod 60000 0 = 60000 :=
  poll_period_floor 60000 0 (by decide)

/-- C8: on the successful startup path the signal handler is installed
strictly before `run()` is entered (it occurs earlier in the trace), and
when a delivered signal makes `run()` return normally the process exits
with status 0. -/
theorem signal_handler_before_run (env : Env) (vm vm2 : Vm) (a : IoAddress)
    (hp : env.cmdParse = .ok vm) (hh : vm.helpCount = 0)
    (hc : env.cfgRead vm = .ok vm2) (hr : env.rulesSetup = .ok ())
    (hn : vm2.nodeAddrCount ≠ 0) (hres : env.resolve vm2.nodeURI = some a)
    (hs : env.serverSetup = .ok ()) (hrun : env.runEnd = runEndAfterSignal) :
    exitStatus (mainFn env).1 = 0
    ∧ (∃ i j : Nat, i < j
        ∧ (mainFn env).2[i]? = some Event.installSignalHandler
        ∧ (mainFn env).2[j]? = some Event.runLoop)
    ∧ Event.logDone ∈ (mainFn env).2 := by
  have hm : mainFn env = (0,
      [Event.readCfg, Event.cleanOldLogfiles (days2sec vm2.logCleanupPeriod),
       Event.setupRules, Event.createReactor, Event.installSignalHandler,
       Event.startLogRotation LOG_ROTATION_PERIOD_SEC
         (days2sec vm2.logCleanupPeriod),
       Event.createService
         ⟨vm2.withAssets, a, vm2.port, vm2.allowedOrigin, vm2.withPipes⟩,
       Event.runLoop, Event.logDone]) := by
    simp [mainFn, hp, hh, hc, hr, hn, hres, hs, hrun, runEndAfterSignal]
  rw [hm]
  exact ⟨rfl, ⟨4, 7, by decide, rfl, rfl⟩, by simp⟩

/-- C8 (witness): the fully successful concrete run. -/
theorem signal_handler_before_run_witness :
    exitStatus (mainFn envOk).1 = 0
    ∧ (∃ i j : Nat, i < j
        ∧ (mainFn envOk).2[i]? = some Event.installSignalHandler
        ∧ (mainFn envOk).2[j]? = some Event.runLoop)
    ∧ Event.logDone ∈ (mainFn envOk).2 :=
  signal_handler_before_run envOk vmOk vmOk ⟨7⟩ rfl rfl rfl rfl (by decide)
    rfl rfl rfl

/-- C10: the log-rotation period is the fixed compile-time constant 43200
seconds (12 hours) — every `LogRotation` start uses it, whatever the
configuration; the log-retention period is configurable in days with
declared default 5; and the same retention value
`days2sec(logCleanupPeriod)` is used both for the one-time
`clean_old_logfiles` at startup and for the recurring `LogRotation`
task. -/
theorem log_rotation_constants (env : Env) (vm vm2 : Vm) (a : IoAddress)
    (hp : env.cmdParse = .ok vm) (hh : vm.helpCount = 0)
    (hc : env.cfgRead vm = .ok vm2) (hr : env.rulesSetup = .ok ())
    (hn : vm2.nodeAddrCount ≠ 0) (hres : env.resolve vm2.nodeURI = some a)
    (hs : env.serverSetup = .ok ()) :
    LOG_ROTATION_PERIOD_SEC = 43200
    ∧ walletApiOptions.logCleanupDaysDefault = 5
    ∧ Event.cleanOldLogfiles (days2sec vm2.logCleanupPeriod) ∈ (mainFn env).2
    ∧ Event.startLogRotation LOG_ROTATION_PERIOD_SEC
        (days2sec vm2.logCleanupPeriod) ∈ (mainFn env).2
    ∧ (∀ rot ret, Event.startLogRotation rot ret ∈ (mainFn env).2 →
        rot = 43200 ∧ ret = days2sec vm2.logCleanupPeriod)
    ∧ (∀ ret, Event.cleanOldLogfiles ret ∈ (mainFn env).2 →
        ret = days2sec vm2.logCleanupPeriod) := by
  rcases h9 : env.runEnd with _ | e <;>
    refine ⟨rfl, rfl, ?_, ?_, ?_, ?_⟩ <;>
      simp [mainFn, hp, hh, hc, hr, hn, hres, hs, h9, LOG_ROTATION_PERIOD_SEC]

/-- C10 (witness): the concrete successful run with the default cleanup
period of 5 days. -/
theorem log_rotation_constants_witness :
    LOG_ROTATION_PERIOD_SEC = 43200
    ∧ walletApiOptions.logCleanupDaysDefault = 5
    ∧ Event.cleanOldLogfiles (days2sec vmOk.logCleanupPeriod) ∈ (mainFn envOk).2
    ∧ Event.startLogRotation LOG_ROTATION_PERIOD_SEC
        (days2sec vmOk.logCleanupPeriod) ∈ (mainFn envOk).2
    ∧ (∀ rot ret, Event.startLogRotation rot ret ∈ (mainFn envOk).2 →
        rot = 43200 ∧ ret = days2sec vmOk.logCleanupPeriod)
    ∧ (∀ ret, Event.cleanOldLogfiles ret ∈ (mainFn envOk).2 →
        ret = days2sec vmOk.logCleanupPeriod) :=
  log_rotation_constants envOk vmOk vmOk ⟨7⟩ rfl rfl rfl rfl (by decide)
    rfl rfl

end WalletServiceSpec
